import Mathlib

/-!
# The logger of `Debug.h` (uDesktopDuplication native plugin)

A shallow embedding of the class `Debug`: its static fields become the record
`Debug.State`, and every member function becomes a function on that record.

* The line buffer `ss_` (a `std::ostringstream`) is its text, its `iostate` flags and
  its formatting state; the file stream `fs_` (a `std::ofstream`) is whether it is
  open, the characters written to the file so far, and its `iostate` flags.
* The formatting state of the buffer (format flags such as the integer base,
  precision, fill character) is a value of a type `F`. No function of `Debug.h`
  reads it or sets it, so the type is a parameter of the development.
* An argument of the variadic `Log`/`Error` is a `Printable`: what `ss_ << arg` does
  to the buffer in a given formatting state, namely the characters it appends, the
  flags it raises (none for a successful insertion) and the formatting state it
  leaves behind.
* Calls through the host's function pointers are recorded, in order, in the
  field `calls`.
* The clock is an input: `Log`/`Error` take the text `buf` that `strftime`
  stored for the current local time; `strftime_F_T` describes that text.
* `std::lock_guard` is not represented: calls are executed one at a time.
-/

namespace Debug

variable {F : Type}

/-! ## Data model -/

/-- The enumeration `Debug::Mode`. -/
inductive Mode where
  | None
  | File
  | UnityLog
deriving DecidableEq, Repr

/-- The enumeration `Debug::Level`. -/
inductive Level where
  | Log
  | Error
deriving DecidableEq, Repr

/-- The `std::ios_base::iostate` flags of a stream. -/
structure IoState where
  eofbit : Bool
  failbit : Bool
  badbit : Bool
deriving DecidableEq, Repr

/-- The value `std::ios_base::goodbit`: no flag set. -/
def goodbit : IoState := ⟨false, false, false⟩

/-- The member `good()`: true when no flag is set. -/
def IoState.good (f : IoState) : Bool := !f.eofbit && !f.failbit && !f.badbit

/-- The member `setstate(g)`: the flags of `g` are raised in addition to those already set. -/
def IoState.setstate (f g : IoState) : IoState :=
  ⟨f.eofbit || g.eofbit, f.failbit || g.failbit, f.badbit || g.badbit⟩

/-- One argument of `Log`/`Error` as the insertion `ss_ << arg` sees it. For the
formatting state `f` in which the insertion starts, `text f` is what it appends to the
buffer (the text form of the argument), `sets f` the flags it raises (none for a
successful insertion), and `next f` the formatting state it leaves: a value such as
`255` reads the formatting state, a manipulator such as `std::hex` changes it. -/
structure Printable (F : Type) where
  text : F → String
  sets : F → IoState
  next : F → F

/-- A string literal such as `"[uDD::Log]"`: inserting it appends its characters, raises
no flag and leaves the formatting state as it is (no field width is pending). -/
def Printable.lit (t : String) : Printable F := ⟨fun _ => t, fun _ => goodbit, fun f => f⟩

/-- Whether the insertion of the argument, started in the formatting state `f`, raises
no flag. -/
def Printable.ok (p : Printable F) (f : F) : Bool := (p.sets f).good

/-- The line buffer, a `std::ostringstream`: its text, its flags and its formatting
state. -/
structure OStringStream (F : Type) where
  str : String
  state : IoState
  fmt : F
deriving DecidableEq, Repr

/-- The insertion `ss_ << arg`. -/
def OStringStream.insert (ss : OStringStream F) (arg : Printable F) : OStringStream F :=
  { str := ss.str ++ arg.text ss.fmt,
    state := ss.state.setstate (arg.sets ss.fmt),
    fmt := arg.next ss.fmt }

/-- The two calls `ss_.str("")` and `ss_.clear(std::stringstream::goodbit)`: the text is
emptied and the flags are cleared; the formatting state stays as it is. -/
def OStringStream.reset (ss : OStringStream F) : OStringStream F :=
  { ss with str := "", state := goodbit }

/-- The file stream, a `std::ofstream`: whether a file is open on it, the
characters written to that file so far, and its flags. A stream whose `open`
failed is not open and has `failbit` set. -/
structure OfStream where
  is_open : Bool
  contents : String
  state : IoState
deriving DecidableEq, Repr

/-- Writing characters to the file stream (`fs_ << text`). On a stream whose flags
are not good nothing is written. On a good stream with an open file the characters
are appended to the file; on a good stream without an open file the write fails
and raises `badbit`. -/
def OfStream.write (fs : OfStream) (text : String) : OfStream :=
  if fs.state.good then
    if fs.is_open then { fs with contents := fs.contents ++ text }
    else { fs with state := fs.state.setstate ⟨false, false, true⟩ }
  else fs

/-- The identity of a host function of type `DebugLogFuncPtr`. -/
abbrev DebugLogFuncPtr := Nat

/-- One call through a `DebugLogFuncPtr`: the function called and the characters of
the array that its `const char*` argument points to, the result of `ss_.str().c_str()`,
without the terminator. -/
structure Call where
  func : DebugLogFuncPtr
  arg : String
deriving DecidableEq, Repr

/-- The static fields of `Debug` that the logging functions use, together with
the record of the calls made to the host. A null function pointer is `none`. -/
structure State (F : Type) where
  mode_ : Mode
  fs_ : OfStream
  ss_ : OStringStream F
  logFunc_ : Option DebugLogFuncPtr
  errFunc_ : Option DebugLogFuncPtr
  calls : List Call
deriving DecidableEq, Repr

/-! ## Operations -/

/-- The setter `Debug::SetMode`. -/
def SetMode (mode : Mode) (s : State F) : State F := { s with mode_ := mode }

/-- The function `Debug::Output`: nothing in mode `None`; otherwise the argument
is inserted into the buffer when the buffer is good. -/
def Output (arg : Printable F) (s : State F) : State F :=
  if s.mode_ = Mode.None then s
  else if s.ss_.state.good then { s with ss_ := s.ss_.insert arg }
  else s

/-- The function `Debug::Flush`. In mode `None` it returns at once. In mode `File`
the buffer text and a newline go to the file when both streams are good. In mode
`UnityLog` the function pointer of the level is called with the buffer text when
the buffer is good and the pointer is not null. In the last two modes the text of the
buffer is then emptied and its flags are cleared. -/
def Flush (level : Level) (s : State F) : State F :=
  match s.mode_ with
  | Mode.None => s
  | Mode.File =>
    let s1 : State F :=
      if s.fs_.state.good && s.ss_.state.good then
        let str := s.ss_.str
        { s with fs_ := (s.fs_.write str).write "\n" }
      else s
    { s1 with ss_ := s1.ss_.reset }
  | Mode.UnityLog =>
    let s1 : State F :=
      if s.ss_.state.good then
        match level with
        | Level.Log =>
          match s.logFunc_ with
          | some f => { s with calls := s.calls ++ [⟨f, s.ss_.str⟩] }
          | none => s
        | Level.Error =>
          match s.errFunc_ with
          | some f => { s with calls := s.calls ++ [⟨f, s.ss_.str⟩] }
          | none => s
      else s
    { s1 with ss_ := s1.ss_.reset }

/-- The two overloads of `Debug::_Log`: each argument is passed to `Output` in
order, and the overload without arguments calls `Flush`. -/
def _Log (level : Level) : List (Printable F) → State F → State F
  | [], s => Flush level s
  | arg :: restArgs, s => _Log level restArgs (Output arg s)

/-- The function `Debug::OutputTime`; `buf` is the text stored by `strftime`. -/
def OutputTime (buf : String) (s : State F) : State F :=
  let s := Output (Printable.lit "[") s
  let s := Output (Printable.lit buf) s
  Output (Printable.lit "]") s

/-- The function `Debug::Log`, called with at least one argument. -/
def Log (s : State F) (buf : String) (arg : Printable F) (restArgs : List (Printable F)) :
    State F :=
  let s := Output (Printable.lit "[uDD::Log]") s
  let s := OutputTime buf s
  let s := Output (Printable.lit " ") s
  _Log Level.Log (arg :: restArgs) s

/-- The function `Debug::Error`, called with at least one argument. -/
def Error (s : State F) (buf : String) (arg : Printable F) (restArgs : List (Printable F)) :
    State F :=
  let s := Output (Printable.lit "[uDD::Err]") s
  let s := OutputTime buf s
  let s := Output (Printable.lit " ") s
  _Log Level.Error (arg :: restArgs) s

/-! ## The text of a line and the state at the flush -/

/-- The tag that `Log` and `Error` put in front of a line. -/
def tag : Level → String
  | Level.Log => "[uDD::Log]"
  | Level.Error => "[uDD::Err]"

/-- The text forms of the arguments, concatenated in call order, each argument being
inserted in the formatting state that the arguments before it have left; `f` is the
formatting state in which the first one is inserted. -/
def message : F → List (Printable F) → String
  | _, [] => ""
  | f, arg :: restArgs => arg.text f ++ message (arg.next f) restArgs

/-- The formatting state that the arguments leave when they are inserted in order,
starting in the formatting state `f`. -/
def fmtAfter : F → List (Printable F) → F
  | f, [] => f
  | f, arg :: restArgs => fmtAfter (arg.next f) restArgs

/-- Whether every argument renders successfully when the arguments are inserted in
order, starting in the formatting state `f`. -/
def rendersOk : F → List (Printable F) → Bool
  | _, [] => true
  | f, arg :: restArgs => arg.ok f && rendersOk (arg.next f) restArgs

/-- The text of a whole line: tag, bracketed time, one space, message. -/
def lineText (level : Level) (buf : String) (f : F) (args : List (Printable F)) : String :=
  tag level ++ "[" ++ buf ++ "]" ++ " " ++ message f args

/-- The calls to `Output` that `Log` and `Error` make before the arguments. -/
def header (level : Level) (buf : String) (s : State F) : State F :=
  Output (Printable.lit " ") (OutputTime buf (Output (Printable.lit (tag level)) s))

/-- The calls to `Output` that `_Log` makes, one for each argument in order, before
it calls `Flush`. -/
def OutputAll : List (Printable F) → State F → State F
  | [], s => s
  | arg :: restArgs, s => OutputAll restArgs (Output arg s)

/-- The state in which a `Log` or `Error` call reaches `Flush`: the tag, the time,
the space and the arguments have been passed to `Output`. -/
def composed (level : Level) (buf : String) (args : List (Printable F)) (s : State F) :
    State F :=
  OutputAll args (header level buf s)

/-- A call of `Log` or of `Error`, chosen by the level. -/
def call (level : Level) (s : State F) (buf : String) (arg : Printable F)
    (restArgs : List (Printable F)) : State F :=
  match level with
  | Level.Log => Log s buf arg restArgs
  | Level.Error => Error s buf arg restArgs

/-! ## The clock -/

/-- The part of the formatting state that the examples use: the base in which integers
are written, set by `std::dec`, `std::oct` and `std::hex`. -/
inductive Basefield where
  | dec
  | oct
  | hex
deriving DecidableEq, Repr

/-- An argument of type `int` such as `42`: inserting it appends the value in the base
of the formatting state, in base 8 and 16 the value as an `unsigned int`. -/
def Printable.int (n : Int) : Printable Basefield :=
  { text := fun b =>
      match b with
      | Basefield.dec => toString n
      | Basefield.oct => String.mk (Nat.toDigits 8 (n % 4294967296).toNat)
      | Basefield.hex => String.mk (Nat.toDigits 16 (n % 4294967296).toNat),
    sets := fun _ => goodbit,
    next := fun b => b }

/-- The manipulator `std::hex` as an argument: inserting it appends nothing and sets
the base to 16. -/
def Printable.hex : Printable Basefield :=
  { text := fun _ => "", sets := fun _ => goodbit, next := fun _ => Basefield.hex }

/-- A null `const char*` argument: inserting it appends nothing and raises `badbit`. -/
def nullCStr : Printable Basefield :=
  { text := fun _ => "", sets := fun _ => ⟨false, false, true⟩, next := fun b => b }

/-- A state in mode `File` with an open, empty log file, a fresh buffer, and both
callbacks registered (functions 1 and 2). -/
def fileState : State Basefield :=
  { mode_ := Mode.File, fs_ := ⟨true, "", goodbit⟩, ss_ := ⟨"", goodbit, Basefield.dec⟩,
    logFunc_ := some 1, errFunc_ := some 2, calls := [] }

/-- A state in mode `UnityLog` with an open, empty log file, a fresh buffer, and
both callbacks registered (functions 1 and 2). -/
def hostState : State Basefield := { fileState with mode_ := Mode.UnityLog }

/-- A state in mode `UnityLog` in which only the error callback is registered. -/
def errorOnlyState : State Basefield := { hostState with logFunc_ := none }

/-- A state in mode `File` whose log file failed to open: the stream is not open and
has `failbit` set; both callbacks are registered. -/
def failedOpenState : State Basefield :=
  { fileState with fs_ := ⟨false, "", ⟨false, true, false⟩⟩ }

theorem IoState.good_iff (f : IoState) : f.good = true ↔ f = goodbit := by
  cases f with
  | mk a b c => cases a <;> cases b <;> cases c <;> simp [IoState.good, goodbit]

theorem IoState.setstate_goodbit (f : IoState) : f.setstate goodbit = f := by
  cases f; simp [IoState.setstate, goodbit]

theorem IoState.goodbit_setstate (f : IoState) : goodbit.setstate f = f := by
  cases f; simp [IoState.setstate, goodbit]

theorem IoState.good_goodbit : goodbit.good = true := rfl

theorem Output_none (arg : Printable F) (s : State F) (h : s.mode_ = Mode.None) :
    Output arg s = s := by
  simp [Output, h]

theorem Output_bad (arg : Printable F) (s : State F) (h : s.ss_.state.good = false) :
    Output arg s = s := by
  simp [Output, h]

theorem Output_good (arg : Printable F) (s : State F) (hm : s.mode_ ≠ Mode.None)
    (h : s.ss_.state.good = true) :
    Output arg s = { s with ss_ := s.ss_.insert arg } := by
  simp [Output, hm, h]

theorem Output_frame (arg : Printable F) (s : State F) :
    Output arg s = { s with ss_ := (Output arg s).ss_ } := by
  unfold Output
  split
  · rfl
  · split <;> rfl

theorem OutputAll_cons (arg : Printable F) (restArgs : List (Printable F)) (s : State F) :
    OutputAll (arg :: restArgs) s = OutputAll restArgs (Output arg s) := rfl

theorem OutputAll_append (xs ys : List (Printable F)) (s : State F) :
    OutputAll (xs ++ ys) s = OutputAll ys (OutputAll xs s) := by
  induction xs generalizing s with
  | nil => rfl
  | cons a r ih => exact ih (Output a s)

theorem OutputAll_none (args : List (Printable F)) (s : State F)
    (h : s.mode_ = Mode.None) : OutputAll args s = s := by
  induction args generalizing s with
  | nil => rfl
  | cons a r ih => rw [OutputAll_cons, Output_none a s h, ih s h]

theorem OutputAll_bad (args : List (Printable F)) (s : State F)
    (h : s.ss_.state.good = false) : OutputAll args s = s := by
  induction args generalizing s with
  | nil => rfl
  | cons a r ih => rw [OutputAll_cons, Output_bad a s h, ih s h]

theorem OutputAll_frame (args : List (Printable F)) (s : State F) :
    OutputAll args s = { s with ss_ := (OutputAll args s).ss_ } := by
  induction args generalizing s with
  | nil => rfl
  | cons a r ih =>
    rw [OutputAll_cons]
    have h1 := ih (Output a s)
    have h2 := Output_frame a s
    rw [h1]
    rw [h2]

theorem OutputAll_ok (args : List (Printable F)) (s : State F)
    (hm : s.mode_ ≠ Mode.None) (hg : s.ss_.state.good = true)
    (hok : rendersOk s.ss_.fmt args = true) :
    OutputAll args s
      = { s with ss_ := ⟨s.ss_.str ++ message s.ss_.fmt args, s.ss_.state,
                         fmtAfter s.ss_.fmt args⟩ } := by
  induction args generalizing s with
  | nil => cases s; simp [OutputAll, message, fmtAfter]
  | cons a r ih =>
    simp only [rendersOk, Bool.and_eq_true] at hok
    have ha : a.sets s.ss_.fmt = goodbit := (IoState.good_iff _).1 hok.1
    have hg2 : (s.ss_.insert a).state.good = true := by
      simpa [OStringStream.insert, ha, IoState.setstate_goodbit] using hg
    rw [OutputAll_cons, Output_good a s hm hg,
      ih { s with ss_ := s.ss_.insert a } hm hg2 hok.2]
    simp [OStringStream.insert, ha, IoState.setstate_goodbit, message, fmtAfter,
      String.append_assoc]

theorem _Log_eq (level : Level) (args : List (Printable F)) (s : State F) :
    _Log level args s = Flush level (OutputAll args s) := by
  induction args generalizing s with
  | nil => rfl
  | cons a r ih => rw [_Log, ih, OutputAll_cons]

theorem header_eq_OutputAll (level : Level) (buf : String) (s : State F) :
    header level buf s
      = OutputAll [Printable.lit (tag level), Printable.lit "[", Printable.lit buf,
          Printable.lit "]", Printable.lit " "] s := rfl

theorem header_frame (level : Level) (buf : String) (s : State F) :
    header level buf s = { s with ss_ := (header level buf s).ss_ } := by
  rw [header_eq_OutputAll]
  exact OutputAll_frame _ s

theorem header_none (level : Level) (buf : String) (s : State F)
    (hm : s.mode_ = Mode.None) : header level buf s = s := by
  rw [header_eq_OutputAll]
  exact OutputAll_none _ s hm

theorem composed_frame (level : Level) (buf : String) (args : List (Printable F))
    (s : State F) :
    composed level buf args s = { s with ss_ := (composed level buf args s).ss_ } := by
  unfold composed
  have h1 := OutputAll_frame args (header level buf s)
  have h2 := header_frame level buf s
  rw [h1]
  rw [h2]

theorem composed_none (level : Level) (buf : String) (args : List (Printable F))
    (s : State F) (hm : s.mode_ = Mode.None) : composed level buf args s = s := by
  unfold composed
  rw [header_none level buf s hm, OutputAll_none args s hm]

theorem call_eq (level : Level) (s : State F) (buf : String) (arg : Printable F)
    (restArgs : List (Printable F)) :
    call level s buf arg restArgs = Flush level (composed level buf (arg :: restArgs) s) := by
  cases level <;> exact _Log_eq _ (arg :: restArgs) _

theorem call_eq_frame (level : Level) (s : State F) (buf : String) (arg : Printable F)
    (restArgs : List (Printable F)) :
    call level s buf arg restArgs
      = Flush level { s with ss_ := (composed level buf (arg :: restArgs) s).ss_ } := by
  rw [call_eq, ← composed_frame]

theorem Flush_none (level : Level) (s : State F) (h : s.mode_ = Mode.None) :
    Flush level s = s := by
  simp [Flush, h]

theorem Flush_bad (level : Level) (s : State F) (hm : s.mode_ ≠ Mode.None)
    (h : s.ss_.state.good = false) :
    Flush level s = { s with ss_ := s.ss_.reset } := by
  cases hmode : s.mode_ with
  | None => exact absurd hmode hm
  | File => simp [Flush, hmode, h]
  | UnityLog => simp [Flush, hmode, h]

theorem Flush_ss (level : Level) (s : State F) (hm : s.mode_ ≠ Mode.None) :
    (Flush level s).ss_ = s.ss_.reset := by
  cases hmode : s.mode_ with
  | None => exact absurd hmode hm
  | File => simp only [Flush, hmode]; split <;> rfl
  | UnityLog =>
    simp only [Flush, hmode]
    split
    · cases level <;> simp only <;> split <;> rfl
    · rfl

theorem OfStream.write_closed (fs : OfStream) (text : String) (h : fs.is_open = false) :
    (fs.write text).contents = fs.contents ∧ (fs.write text).is_open = false := by
  unfold OfStream.write
  split <;> simp [h]

theorem Flush_file_calls (level : Level) (s : State F) (hm : s.mode_ = Mode.File) :
    (Flush level s).calls = s.calls := by
  simp only [Flush, hm]
  split <;> rfl

theorem Flush_unity_fs (level : Level) (s : State F) (hm : s.mode_ = Mode.UnityLog) :
    (Flush level s).fs_ = s.fs_ := by
  simp only [Flush, hm]
  split
  · cases level <;> simp only <;> split <;> rfl
  · rfl

theorem Flush_file_unusable (level : Level) (s : State F) (hm : s.mode_ = Mode.File)
    (hu : s.fs_.state.good = false ∨ s.fs_.is_open = false) :
    (Flush level s).fs_.contents = s.fs_.contents := by
  simp only [Flush, hm]
  split
  · rcases hu with hu | hu
    · simp_all
    · simp [(OfStream.write_closed _ _ (OfStream.write_closed s.fs_ s.ss_.str hu).2).1,
        (OfStream.write_closed s.fs_ s.ss_.str hu).1]
  · rfl

theorem Flush_unity_unset (level : Level) (s : State F) (hm : s.mode_ = Mode.UnityLog)
    (hf : (match level with
            | Level.Log => s.logFunc_
            | Level.Error => s.errFunc_) = none) :
    Flush level s = { s with ss_ := s.ss_.reset } := by
  cases s with
  | mk m fs ss lf ef cs =>
    simp only at hm hf
    subst hm
    cases level <;> simp only at hf <;> subst hf <;> simp [Flush]

theorem call_none (level : Level) (s : State F) (buf : String) (arg : Printable F)
    (restArgs : List (Printable F)) (hm : s.mode_ = Mode.None) :
    call level s buf arg restArgs = s := by
  rw [call_eq, composed_none level buf _ s hm, Flush_none level s hm]

theorem call_dropped (level : Level) (s : State F) (buf : String) (arg : Printable F)
    (restArgs : List (Printable F)) (hm : s.mode_ ≠ Mode.None)
    (hbad : (composed level buf (arg :: restArgs) s).ss_.state.good = false) :
    call level s buf arg restArgs
      = { s with ss_ := ⟨"", goodbit, (composed level buf (arg :: restArgs) s).ss_.fmt⟩ } := by
  rw [call_eq_frame,
    Flush_bad level { s with ss_ := (composed level buf (arg :: restArgs) s).ss_ } hm hbad]
  rfl

theorem composed_split (level : Level) (buf : String) (pre post : List (Printable F))
    (bad : Printable F) (s : State F)
    (hbad : (composed level buf (pre ++ [bad]) s).ss_.state.good = false) :
    composed level buf (pre ++ bad :: post) s = composed level buf (pre ++ [bad]) s := by
  have h : pre ++ bad :: post = (pre ++ [bad]) ++ post := by simp
  unfold composed at hbad ⊢
  rw [h, OutputAll_append, OutputAll_bad post _ hbad]

theorem composed_upto_bad (level : Level) (buf : String) (pre : List (Printable F))
    (bad : Printable F) (s : State F) (hm : s.mode_ ≠ Mode.None)
    (hg : s.ss_.state.good = true) (hpre : rendersOk s.ss_.fmt pre = true) :
    (composed level buf (pre ++ [bad]) s).ss_
      = ⟨s.ss_.str ++ lineText level buf s.ss_.fmt pre ++ bad.text (fmtAfter s.ss_.fmt pre),
         bad.sets (fmtAfter s.ss_.fmt pre), bad.next (fmtAfter s.ss_.fmt pre)⟩ := by
  have hs := (IoState.good_iff _).1 hg
  unfold composed
  rw [header_eq_OutputAll, ← OutputAll_append, ← List.append_assoc, OutputAll_append,
    OutputAll_ok _ s hm hg (by simpa [rendersOk, Printable.lit, Printable.ok,
      IoState.good_goodbit] using hpre)]
  have e : ∀ x : String, "] " ++ x = "]" ++ (" " ++ x) := fun x => by
    rw [← String.append_assoc]
    rfl
  simp [OutputAll, Output, hm, hs, IoState.good_goodbit, OStringStream.insert, lineText,
    message, fmtAfter, Printable.lit, IoState.goodbit_setstate, String.append_assoc, e]

theorem composed_enters_bad (level : Level) (buf : String) (args : List (Printable F))
    (s : State F) (hb : s.ss_.state.good = false) : composed level buf args s = s := by
  unfold composed
  rw [header_eq_OutputAll, OutputAll_bad _ s hb, OutputAll_bad args s hb]

/-- C3: in mode None a Log or Error call returns the state it was given, whatever the
arguments, the time text, the callbacks, the file stream and the buffer: nothing is
written, no callback is called, the buffer keeps its text and flags; so does any number
of repeated calls. -/
theorem C3_disabled_unchanged (s : State F) (buf : String) (arg : Printable F)
    (restArgs : List (Printable F)) (hm : s.mode_ = Mode.None) :
    Log s buf arg restArgs = s ∧ Error s buf arg restArgs = s
    ∧ ∀ n : Nat, (fun t => Log t buf arg restArgs)^[n] s = s
        ∧ (fun t => Error t buf arg restArgs)^[n] s = s := by
  have hl : Log s buf arg restArgs = s := call_none Level.Log s buf arg restArgs hm
  have he : Error s buf arg restArgs = s := call_none Level.Error s buf arg restArgs hm
  refine ⟨hl, he, fun n => ⟨?_, ?_⟩⟩
  · exact @Function.iterate_fixed (State F) (fun t => Log t buf arg restArgs) s hl n
  · exact @Function.iterate_fixed (State F) (fun t => Error t buf arg restArgs) s he n

/-- C3 at a state in mode None with an open file and both callbacks registered:
Error("boom") repeated 1000 times leaves the state as it was. -/
theorem C3_disabled_unchanged_witness :
    (SetMode Mode.None fileState).mode_ = Mode.None
    ∧ Error (SetMode Mode.None fileState) "2024-01-02 03:04:05" (Printable.lit "boom") []
        = SetMode Mode.None fileState
    ∧ (fun t => Error t "2024-01-02 03:04:05" (Printable.lit "boom") [])^[1000]
          (SetMode Mode.None fileState)
        = SetMode Mode.None fileState := by
  have h := C3_disabled_unchanged (SetMode Mode.None fileState) "2024-01-02 03:04:05"
    (Printable.lit "boom") [] rfl
  exact ⟨rfl, h.2.1, (h.2.2 1000).2⟩

/-- C5: in mode UnityLog, a Log call with the log callback unset, and an Error call with
the error callback unset, call no callback (the callback of the other level is not
used instead), write nothing to the file, and return with the buffer empty and good;
nothing else changes, the formatting state of the buffer being the one the composition
of the line has left. -/
theorem C5_unset_callback_skipped (s : State F) (buf : String) (arg : Printable F)
    (restArgs : List (Printable F)) (hm : s.mode_ = Mode.UnityLog) :
    (s.logFunc_ = none →
      Log s buf arg restArgs
        = { s with ss_ :=
              ⟨"", goodbit, (composed Level.Log buf (arg :: restArgs) s).ss_.fmt⟩ })
    ∧ (s.errFunc_ = none →
      Error s buf arg restArgs
        = { s with ss_ :=
              ⟨"", goodbit, (composed Level.Error buf (arg :: restArgs) s).ss_.fmt⟩ }) := by
  have key : ∀ level,
      (match level with
        | Level.Log => s.logFunc_
        | Level.Error => s.errFunc_) = none →
      call level s buf arg restArgs
        = { s with ss_ :=
              ⟨"", goodbit, (composed level buf (arg :: restArgs) s).ss_.fmt⟩ } := by
    intro level hf
    rw [call_eq_frame,
      Flush_unity_unset level
        { s with ss_ := (composed level buf (arg :: restArgs) s).ss_ } hm hf]
    rfl
  exact ⟨fun hf => key Level.Log hf, fun hf => key Level.Error hf⟩

/-- C5 at the call Log("x") in mode UnityLog with only the error callback registered:
no callback is called and the state is as before. -/
theorem C5_unset_callback_skipped_witness :
    errorOnlyState.errFunc_ = some 2
    ∧ (Log errorOnlyState "2024-01-02 03:04:05" (Printable.lit "x") []).calls = []
    ∧ Log errorOnlyState "2024-01-02 03:04:05" (Printable.lit "x") [] = errorOnlyState := by
  have h := (C5_unset_callback_skipped errorOnlyState "2024-01-02 03:04:05"
    (Printable.lit "x") [] rfl).1 rfl
  exact ⟨rfl, by rw [h]; rfl, by rw [h]; rfl⟩

/-- C6: in mode File with a file stream that is not usable (its flags are not good, or no
file is open on it), a Log or Error call drops the line: the file contents are as
before, no callback is called whatever is registered, and the buffer is empty and good
afterwards. -/
theorem C6_unusable_file_drops (s : State F) (buf : String) (arg : Printable F)
    (restArgs : List (Printable F)) (hm : s.mode_ = Mode.File)
    (hu : s.fs_.state.good = false ∨ s.fs_.is_open = false) :
    ((Log s buf arg restArgs).fs_.contents = s.fs_.contents
      ∧ (Log s buf arg restArgs).calls = s.calls
      ∧ (Log s buf arg restArgs).ss_.str = ""
      ∧ (Log s buf arg restArgs).ss_.state = goodbit)
    ∧ ((Error s buf arg restArgs).fs_.contents = s.fs_.contents
      ∧ (Error s buf arg restArgs).calls = s.calls
      ∧ (Error s buf arg restArgs).ss_.str = ""
      ∧ (Error s buf arg restArgs).ss_.state = goodbit) := by
  have hne : s.mode_ ≠ Mode.None := by simp [hm]
  have key : ∀ level,
      (call level s buf arg restArgs).fs_.contents = s.fs_.contents
      ∧ (call level s buf arg restArgs).calls = s.calls
      ∧ (call level s buf arg restArgs).ss_.str = ""
      ∧ (call level s buf arg restArgs).ss_.state = goodbit := by
    intro level
    rw [call_eq_frame]
    refine ⟨Flush_file_unusable level
        { s with ss_ := (composed level buf (arg :: restArgs) s).ss_ } hm hu,
      Flush_file_calls level
        { s with ss_ := (composed level buf (arg :: restArgs) s).ss_ } hm, ?_, ?_⟩
    · rw [Flush_ss level { s with ss_ := (composed level buf (arg :: restArgs) s).ss_ } hne]
      rfl
    · rw [Flush_ss level { s with ss_ := (composed level buf (arg :: restArgs) s).ss_ } hne]
      rfl
  exact ⟨key Level.Log, key Level.Error⟩

/-- C6 at the calls Log("x") and Error("x") in mode File after a failed open, with both
callbacks registered: nothing is written, nothing is called, the buffer is reset. -/
theorem C6_unusable_file_drops_witness :
    failedOpenState.fs_.state.good = false
    ∧ ((Log failedOpenState "2024-01-02 03:04:05" (Printable.lit "x") []).fs_.contents = ""
      ∧ (Log failedOpenState "2024-01-02 03:04:05" (Printable.lit "x") []).calls = []
      ∧ (Log failedOpenState "2024-01-02 03:04:05" (Printable.lit "x") []).ss_.str = ""
      ∧ (Log failedOpenState "2024-01-02 03:04:05" (Printable.lit "x") []).ss_.state
          = goodbit)
    ∧ ((Error failedOpenState "2024-01-02 03:04:05" (Printable.lit "x") []).fs_.contents = ""
      ∧ (Error failedOpenState "2024-01-02 03:04:05" (Printable.lit "x") []).calls = []
      ∧ (Error failedOpenState "2024-01-02 03:04:05" (Printable.lit "x") []).ss_.str = ""
      ∧ (Error failedOpenState "2024-01-02 03:04:05" (Printable.lit "x") []).ss_.state
          = goodbit) :=
  ⟨rfl, C6_unusable_file_drops failedOpenState "2024-01-02 03:04:05" (Printable.lit "x") []
    rfl (Or.inl rfl)⟩

/-- C7: logging engages only the sink of the current mode. In mode File a Log or Error
call calls no callback, whatever is registered; in mode UnityLog it leaves the file
stream as it was, whatever its state; and after SetMode(m) the next Log or Error call
runs in mode m whatever the mode was before: the result does not depend on the
previous mode, in mode None it is the unchanged state, in mode File no callback is
called, in mode UnityLog the file stream is untouched. -/
theorem C7_only_current_sink (s : State F) (m prev : Mode) (buf : String)
    (arg : Printable F) (restArgs : List (Printable F)) :
    (s.mode_ = Mode.File →
      (Log s buf arg restArgs).calls = s.calls ∧ (Error s buf arg restArgs).calls = s.calls)
    ∧ (s.mode_ = Mode.UnityLog →
      (Log s buf arg restArgs).fs_ = s.fs_ ∧ (Error s buf arg restArgs).fs_ = s.fs_)
    ∧ (SetMode m (SetMode prev s)).mode_ = m
    ∧ Log (SetMode m (SetMode prev s)) buf arg restArgs = Log (SetMode m s) buf arg restArgs
    ∧ Error (SetMode m (SetMode prev s)) buf arg restArgs
        = Error (SetMode m s) buf arg restArgs
    ∧ (m = Mode.None →
      Log (SetMode m s) buf arg restArgs = SetMode m s
      ∧ Error (SetMode m s) buf arg restArgs = SetMode m s)
    ∧ (m = Mode.File →
      (Log (SetMode m s) buf arg restArgs).calls = s.calls
      ∧ (Error (SetMode m s) buf arg restArgs).calls = s.calls)
    ∧ (m = Mode.UnityLog →
      (Log (SetMode m s) buf arg restArgs).fs_ = s.fs_
      ∧ (Error (SetMode m s) buf arg restArgs).fs_ = s.fs_) := by
  have hfile : ∀ (level : Level) (u : State F), u.mode_ = Mode.File →
      (call level u buf arg restArgs).calls = u.calls := by
    intro level u hu
    rw [call_eq_frame]
    exact Flush_file_calls level
      { u with ss_ := (composed level buf (arg :: restArgs) u).ss_ } hu
  have hunity : ∀ (level : Level) (u : State F), u.mode_ = Mode.UnityLog →
      (call level u buf arg restArgs).fs_ = u.fs_ := by
    intro level u hu
    rw [call_eq_frame]
    exact Flush_unity_fs level
      { u with ss_ := (composed level buf (arg :: restArgs) u).ss_ } hu
  have hnone : ∀ (level : Level) (u : State F), u.mode_ = Mode.None →
      call level u buf arg restArgs = u :=
    fun level u hu => call_none level u buf arg restArgs hu
  refine ⟨fun h => ⟨hfile Level.Log s h, hfile Level.Error s h⟩,
    fun h => ⟨hunity Level.Log s h, hunity Level.Error s h⟩, rfl, rfl, rfl, ?_, ?_, ?_⟩
  · intro h
    exact ⟨hnone Level.Log (SetMode m s) h, hnone Level.Error (SetMode m s) h⟩
  · intro h
    exact ⟨hfile Level.Log (SetMode m s) h, hfile Level.Error (SetMode m s) h⟩
  · intro h
    exact ⟨hunity Level.Log (SetMode m s) h, hunity Level.Error (SetMode m s) h⟩

/-- C7 at the call Log("value=", 42) with an open file and both callbacks registered: in
mode File no callback is called, in mode UnityLog the file stays empty, and after
SetMode(None) nothing at all happens. -/
theorem C7_only_current_sink_witness :
    (Log fileState "2024-01-02 03:04:05" (Printable.lit "value=") [Printable.int 42]).calls
      = fileState.calls
    ∧ (Log hostState "2024-01-02 03:04:05" (Printable.lit "value=") [Printable.int 42]).fs_
      = hostState.fs_
    ∧ Log (SetMode Mode.None hostState) "2024-01-02 03:04:05" (Printable.lit "value=")
        [Printable.int 42] = SetMode Mode.None hostState :=
  ⟨((C7_only_current_sink fileState Mode.File Mode.None "2024-01-02 03:04:05"
      (Printable.lit "value=") [Printable.int 42]).1 rfl).1,
   ((C7_only_current_sink hostState Mode.File Mode.None "2024-01-02 03:04:05"
      (Printable.lit "value=") [Printable.int 42]).2.1 rfl).1,
   ((C7_only_current_sink hostState Mode.None Mode.File "2024-01-02 03:04:05"
      (Printable.lit "value=") [Printable.int 42]).2.2.2.2.2.1 rfl).1⟩

/-- C9, as stated, fails: in the call Log("a=", p, "b") with p a null character pointer,
whose insertion raises badbit, the text composed before the failure is not emitted: in
mode File with an open file the file stays empty, and in mode UnityLog with the log
callback registered no callback is called. -/
theorem C9_truncated_line_counterexample :
    (Log fileState "2024-01-02 03:04:05" (Printable.lit "a=")
        [nullCStr, Printable.lit "b"]).fs_.contents
      ≠ fileState.fs_.contents ++ "[uDD::Log][2024-01-02 03:04:05] a=\n"
    ∧ (Log fileState "2024-01-02 03:04:05" (Printable.lit "a=")
        [nullCStr, Printable.lit "b"]).fs_.contents = ""
    ∧ (Log hostState "2024-01-02 03:04:05" (Printable.lit "a=")
        [nullCStr, Printable.lit "b"]).calls
      ≠ hostState.calls ++ [⟨1, "[uDD::Log][2024-01-02 03:04:05] a="⟩]
    ∧ (Log hostState "2024-01-02 03:04:05" (Printable.lit "a=")
        [nullCStr, Printable.lit "b"]).calls = [] := by
  decide

/-- C9, amended: for a Log or Error call in a mode other than None in which the
rendering of some argument puts the buffer into a bad state (or the buffer is bad when
the call starts): the remaining arguments are not appended, that is, the state in
which the call reaches Flush is the state right after the failing argument, every
further call of Output leaves that state as it is, and when the buffer was good at
the start its text is then the text it had, the line up to the failing argument and
what the failing argument wrote; nothing is emitted to the sink
(the file stream and the record of callback calls are as before, whether or not the
sink is available); and the reset still occurs: the buffer is empty and good
afterwards, so the next line is unaffected. -/
theorem C9_failed_argument_drops_line (s : State F) (buf : String) (arg : Printable F)
    (restArgs pre post : List (Printable F)) (bad : Printable F)
    (hm : s.mode_ ≠ Mode.None)
    (hsplit : arg :: restArgs = pre ++ bad :: post)
    (hfail : s.ss_.state.good = false
      ∨ (rendersOk s.ss_.fmt pre = true ∧ bad.ok (fmtAfter s.ss_.fmt pre) = false)) :
    (∀ level,
      composed level buf (arg :: restArgs) s = composed level buf (pre ++ [bad]) s
      ∧ (composed level buf (pre ++ [bad]) s).ss_.state.good = false
      ∧ (∀ a : Printable F,
          Output a (composed level buf (pre ++ [bad]) s) = composed level buf (pre ++ [bad]) s)
      ∧ (s.ss_.state.good = true →
          (composed level buf (pre ++ [bad]) s).ss_.str
            = s.ss_.str ++ lineText level buf s.ss_.fmt pre
                ++ bad.text (fmtAfter s.ss_.fmt pre)))
    ∧ Log s buf arg restArgs = Flush Level.Log (composed Level.Log buf (arg :: restArgs) s)
    ∧ Error s buf arg restArgs
        = Flush Level.Error (composed Level.Error buf (arg :: restArgs) s)
    ∧ Log s buf arg restArgs
        = { s with ss_ := ⟨"", goodbit, (composed Level.Log buf (pre ++ [bad]) s).ss_.fmt⟩ }
    ∧ Error s buf arg restArgs
        = { s with ss_ :=
              ⟨"", goodbit, (composed Level.Error buf (pre ++ [bad]) s).ss_.fmt⟩ } := by
  have hbad : ∀ level, (composed level buf (pre ++ [bad]) s).ss_.state.good = false := by
    intro level
    rcases hfail with hb | ⟨hpre, hb⟩
    · rw [composed_enters_bad level buf _ s hb]
      exact hb
    · cases hg : s.ss_.state.good with
      | false =>
        rw [composed_enters_bad level buf _ s hg]
        exact hg
      | true =>
        rw [composed_upto_bad level buf pre bad s hm hg hpre]
        exact hb
  have hrest : ∀ level,
      composed level buf (arg :: restArgs) s = composed level buf (pre ++ [bad]) s := by
    intro level
    rw [hsplit]
    exact composed_split level buf pre post bad s (hbad level)
  have htext : ∀ level, s.ss_.state.good = true →
      (composed level buf (pre ++ [bad]) s).ss_.str
        = s.ss_.str ++ lineText level buf s.ss_.fmt pre
            ++ bad.text (fmtAfter s.ss_.fmt pre) := by
    intro level hg
    rcases hfail with hb | ⟨hpre, _⟩
    · rw [hg] at hb
      exact absurd hb (by simp)
    · rw [composed_upto_bad level buf pre bad s hm hg hpre]
  have hdrop : ∀ level, call level s buf arg restArgs
      = { s with ss_ := ⟨"", goodbit, (composed level buf (pre ++ [bad]) s).ss_.fmt⟩ } := by
    intro level
    have hb := hbad level
    rw [← hrest level] at hb
    rw [call_dropped level s buf arg restArgs hm hb, hrest level]
  exact ⟨fun level => ⟨hrest level, hbad level,
      fun a => Output_bad a _ (hbad level), htext level⟩,
    call_eq Level.Log s buf arg restArgs, call_eq Level.Error s buf arg restArgs,
    hdrop Level.Log, hdrop Level.Error⟩

/-- C9, amended, at the call Log("a=", p, "b") with p a null character pointer, in mode
File with an open file and in mode UnityLog with both callbacks registered: the buffer
holds the line up to a= when the call reaches Flush, and the call returns the state it
was given. -/
theorem C9_failed_argument_drops_line_witness :
    nullCStr.ok Basefield.dec = false
    ∧ (composed Level.Log "2024-01-02 03:04:05"
          [Printable.lit "a=", nullCStr, Printable.lit "b"] fileState).ss_.str
        = "[uDD::Log][2024-01-02 03:04:05] a="
    ∧ Log fileState "2024-01-02 03:04:05" (Printable.lit "a=") [nullCStr, Printable.lit "b"]
        = fileState
    ∧ Error hostState "2024-01-02 03:04:05" (Printable.lit "a=") [nullCStr, Printable.lit "b"]
        = hostState := by
  have h := C9_failed_argument_drops_line fileState "2024-01-02 03:04:05" (Printable.lit "a=")
    [nullCStr, Printable.lit "b"] [Printable.lit "a="] [Printable.lit "b"] nullCStr
    (by decide) rfl (Or.inr ⟨rfl, rfl⟩)
  have h2 := C9_failed_argument_drops_line hostState "2024-01-02 03:04:05" (Printable.lit "a=")
    [nullCStr, Printable.lit "b"] [Printable.lit "a="] [Printable.lit "b"] nullCStr
    (by decide) rfl (Or.inr ⟨rfl, rfl⟩)
  refine ⟨rfl, ?_, ?_, ?_⟩
  · rw [(h.1 Level.Log).1, (h.1 Level.Log).2.2.2 rfl]
    decide
  · rw [h.2.2.2.1]
    decide
  · rw [h2.2.2.2.2]
    decide

end Debug
